import Mathlib

/-!
Verification of the Diadochi domain-expert routing and response-synthesis
engine (`src/backend/diadochi`) against its natural-language specification.

The Python source is shallowly embedded: pure functions become Lean
functions, Python `float` values are modelled by `ℚ`, Python dictionaries
by association lists in insertion order, and fallible or exception-raising
code by `Except`/`Option`.  External collaborators (the embedding model,
the backend LLM calls, `numpy.exp`) enter as explicit function parameters.
-/

/-! ### String helpers mirroring Python string primitives.

All character-level work happens on `List Char` (the `data` field of
`String`) so that every definition reduces inside the kernel. -/

/-- Lowercase every character, modelling Python `str.lower` on ASCII text. -/
def lowerChars (l : List Char) : List Char := l.map Char.toLower

/-- Lowercase a string, modelling Python `str.lower`. -/
def strLower (s : String) : String := String.mk (lowerChars s.data)

/-- Whitespace test used by Python `str.split()` and `str.strip()`. -/
def isWS (c : Char) : Bool := c.isWhitespace

/-- Drop leading and trailing whitespace characters. -/
def trimChars (l : List Char) : List Char :=
  ((l.dropWhile isWS).reverse.dropWhile isWS).reverse

/-- Model of Python `str.strip()`. -/
def pyStrip (s : String) : String := String.mk (trimChars s.data)

/-- Does the first list occur as a leading block of the second list? -/
def startsWithL : List Char → List Char → Bool
  | [], _ => true
  | _ :: _, [] => false
  | p :: ps, t :: ts => p == t && startsWithL ps ts

/-- Does the first list occur contiguously anywhere inside the second list? -/
def occursIn : List Char → List Char → Bool
  | ps, [] => startsWithL ps []
  | ps, t :: ts => startsWithL ps (t :: ts) || occursIn ps ts

/-- Model of the Python substring test `pat in hay`. -/
def strContains (hay pat : String) : Bool := occursIn pat.data hay.data

/-- Accumulator pass splitting a character list into maximal
non-whitespace runs, as Python `str.split()` does. -/
def wordsAux : List Char → List Char → List (List Char)
  | [], acc => if acc.isEmpty then [] else [acc.reverse]
  | c :: cs, acc =>
    if isWS c then
      (if acc.isEmpty then wordsAux cs [] else acc.reverse :: wordsAux cs [])
    else wordsAux cs (c :: acc)

/-- Model of Python `str.split()` with no argument: whitespace-separated
words, empty pieces dropped. -/
def pyWords (s : String) : List String := (wordsAux s.data []).map String.mk

/-- Number of whitespace-separated words, Python `len(s.split())`. -/
def wordCount (s : String) : Nat := (wordsAux s.data []).length

/-- Accumulator pass for splitting on every character satisfying a
predicate, keeping empty pieces (Python `str.split(c)` semantics). -/
def splitPredAux (p : Char → Bool) : List Char → List Char → List (List Char)
  | [], acc => [acc.reverse]
  | c :: cs, acc =>
    if p c then acc.reverse :: splitPredAux p cs []
    else splitPredAux p cs (c :: acc)

/-- Model of Python `str.split(sep)` for a single-character separator:
splits at every occurrence and keeps empty pieces. -/
def pySplitChar (d : Char) (s : String) : List String :=
  (splitPredAux (fun c => c == d) s.data []).map String.mk

/-- Split at every character from a set, keeping empty pieces.  Together
with a strip-and-drop-empties pass this models Python
`re.split(r"[.!?]+", s)`. -/
def pySplitAnyChar (ds : List Char) (s : String) : List String :=
  (splitPredAux (fun c => ds.contains c) s.data []).map String.mk

/-! ### Stable descending sort and first-maximum selection.

Python `sorted(key=..., reverse=True)` is a stable sort placing larger
keys first, and Python `max(xs, key=...)` returns the first element
attaining the maximum.  Both are modelled directly. -/

/-- Insert an element into a weight-descending list, after every element
whose key is at least as large (so earlier equal-keyed elements stay
first, matching Python sort stability). -/
def insertDescBy {α : Type} (key : α → ℚ) (x : α) : List α → List α
  | [] => [x]
  | y :: ys => if key x > key y then x :: y :: ys else y :: insertDescBy key x ys

/-- Stable sort by descending key, modelling Python
`sorted(xs, key=key, reverse=True)`. -/
def sortDescBy {α : Type} (key : α → ℚ) : List α → List α
  | [] => []
  | x :: xs => insertDescBy key x (sortDescBy key xs)

/-- Scan keeping the first element attaining the maximal key (a later
element replaces the current best only when strictly larger). -/
def firstMaxByGo {α : Type} (key : α → ℚ) (best : α) : List α → α
  | [] => best
  | y :: ys => if key y > key best then firstMaxByGo key y ys else firstMaxByGo key best ys

/-- First element attaining the maximal key, modelling Python
`max(xs, key=key)` (which keeps the first among ties); `none` on `[]`. -/
def firstMaxBy {α : Type} (key : α → ℚ) : List α → Option α
  | [] => none
  | x :: xs => some (firstMaxByGo key x xs)

/-- Python `weights.get(k, 0.0)` over an association-list dictionary. -/
def wget (w : List (String × ℚ)) (k : String) : ℚ := ((w.lookup k).getD 0)

/-! ### Orchestrator: query analysis and strategy selection
(`orchestrator.py`, `MetacognitiveOrchestrator._analyze_query` and
`_select_strategy`). -/

/-- The `PipelineStrategy` enum of `orchestrator.py`. -/
inductive PipelineStrategy where
  | auto
  | ensemble
  | moe
  | chain
  | hybrid
deriving DecidableEq, Fintype

/-- The `QueryComplexity` enum of `orchestrator.py`. -/
inductive QueryComplexity where
  | simple
  | moderate
  | complex
  | expert
deriving DecidableEq, Fintype

/-- The `domain_indicators` word list of `_analyze_query`. -/
def domainIndicators : List String :=
  ["compare", "versus", "and", "both", "multiple", "different",
   "integrate", "combine", "synthesis", "holistic"]

/-- The `expert_indicators` word list of `_analyze_query`. -/
def expertIndicators : List String :=
  ["explain", "analyze", "detailed", "comprehensive", "in-depth",
   "research", "study", "investigation", "technical"]

/-- The fields of the analysis dictionary produced by `_analyze_query`
that `_select_strategy` consumes. -/
structure QueryAnalysis where
  length : Nat
  complexity : QueryComplexity
  requiresSynthesis : Bool
  requiresExpertise : Bool
deriving DecidableEq

/-- Complexity tier from the word count alone: the source tests
`word_count > 50` then `word_count > 20`. -/
def baseComplexity (wc : Nat) : QueryComplexity :=
  if wc > 50 then .complex else if wc > 20 then .moderate else .simple

/-- Embedding of `MetacognitiveOrchestrator._analyze_query` (the
`domain_context`, `domains`, `keywords` and `confidence_requirements`
entries play no role in strategy selection and are omitted). -/
def analyzeQuery (query : String) : QueryAnalysis :=
  let wc := wordCount query
  let ql := strLower query
  let synth := domainIndicators.any (fun ind => strContains ql ind)
  let comp := if synth then .complex else baseComplexity wc
  let expertise := expertIndicators.any (fun ind => strContains ql ind)
  { length := wc, complexity := comp,
    requiresSynthesis := synth, requiresExpertise := expertise }

/-- Embedding of `MetacognitiveOrchestrator._select_strategy`: the pinned
strategy wins unless it is `auto`, otherwise the decision cascade runs. -/
def selectStrategy (analysis : QueryAnalysis) (cfgStrategy : PipelineStrategy) :
    PipelineStrategy :=
  if cfgStrategy ≠ .auto then cfgStrategy
  else if analysis.complexity = .simple ∧ ¬analysis.requiresSynthesis then .ensemble
  else if analysis.requiresSynthesis ∨ analysis.complexity = .complex then .moe
  else if analysis.requiresExpertise ∧
      (analysis.complexity = .moderate ∨ analysis.complexity = .complex) then .chain
  else if analysis.complexity = .expert then .hybrid
  else .ensemble

/-! ### Orchestrator: `MetacognitiveOrchestrator.process_query`.

The execution of one strategy (`_execute_pipeline` followed by
`_enhance_result`) is an I/O action against backend experts; it enters the
model as an oracle `exec : PipelineStrategy → Except String StrategyResult`
(`Except.error e` models an uncaught Python exception with message `e`).
`process_query` recurses at most twice (the configured fallback, whose
fresh default configuration can in turn fall back to ensemble), so a fuel
of 3 is exact; `processQueryAux_fuel` proves fuel-independence beyond 3.
Alongside the result we return the list of strategies whose execution was
attempted, in order, to make fallback attempts observable. -/

/-- The `PipelineConfig` dataclass of `orchestrator.py` with its field
defaults (`fallback_strategy` defaults to `ENSEMBLE`). -/
structure PipelineConfig where
  strategy : PipelineStrategy := .auto
  maxParallelModels : Nat := 3
  confidenceThreshold : ℚ := 7/10
  enableExplanation : Bool := true
  enableMetadata : Bool := true
  timeoutSeconds : ℚ := 30
  fallbackStrategy : Option PipelineStrategy := some .ensemble
deriving DecidableEq

/-- Outcome of executing one strategy, as consumed by `process_query`
when building the returned `PipelineResult`. -/
structure StrategyResult where
  response : String
  confidence : ℚ
  modelsUsed : List String
  metadata : List (String × String)
deriving DecidableEq

/-- The `PipelineResult` dataclass of `orchestrator.py` (the optional
explanation and intermediate results are part of the metadata oracle and
not tracked separately). -/
structure PipelineResult where
  response : String
  confidence : ℚ
  strategyUsed : PipelineStrategy
  modelsUsed : List String
  metadata : List (String × String)
deriving DecidableEq

/-- The error result built at the end of the `except` block of
`process_query`: confidence `0.0`, the configured strategy, and metadata
carrying the error message. -/
def errorPipelineResult (cfg : PipelineConfig) (msg : String) : PipelineResult :=
  { response := "Pipeline execution failed: " ++ msg
    confidence := 0
    strategyUsed := cfg.strategy
    modelsUsed := []
    metadata := [("error", msg), ("failed", "True")] }

/-- Fueled embedding of `MetacognitiveOrchestrator.process_query`: analyze,
select, execute; on failure, if a fallback strategy is configured and
differs from the configured strategy, recurse with
`PipelineConfig(strategy=fallback)` (all other fields at their defaults,
exactly as the source constructs it); otherwise return the error result.
The second component lists the strategies whose execution was attempted. -/
def processQueryAux (exec : PipelineStrategy → Except String StrategyResult)
    (query : String) :
    Nat → PipelineConfig → PipelineResult × List PipelineStrategy
  | 0, cfg => (errorPipelineResult cfg "fuel exhausted", [])
  | n + 1, cfg =>
    let strat := selectStrategy (analyzeQuery query) cfg.strategy
    match exec strat with
    | .ok r =>
      ({ response := r.response, confidence := r.confidence, strategyUsed := strat,
         modelsUsed := r.modelsUsed, metadata := r.metadata }, [strat])
    | .error e =>
      match cfg.fallbackStrategy with
      | some fb =>
        if fb ≠ cfg.strategy then
          let res := processQueryAux exec query n { strategy := fb }
          (res.1, strat :: res.2)
        else (errorPipelineResult cfg e, [strat])
      | none => (errorPipelineResult cfg e, [strat])

/-- Embedding of `process_query` (fuel 3 is exact, see
`processQueryAux_fuel`). -/
def processQuery (exec : PipelineStrategy → Except String StrategyResult)
    (query : String) (cfg : PipelineConfig) :
    PipelineResult × List PipelineStrategy :=
  processQueryAux exec query 3 cfg

/-- Oracle for the C1 counterexample: `ensemble` succeeds with confidence
0.5, every other strategy raises. -/
def c1FallbackChainExec : PipelineStrategy → Except String StrategyResult :=
  fun s => if s = .ensemble then .ok ⟨"recovered by ensemble", 1/2, ["m1"], []⟩
           else .error "primary failed"

/-- Configuration for the C1 counterexample: pinned strategy `chain`,
configured fallback `moe`. -/
def c1ChainMoeConfig : PipelineConfig :=
  { strategy := .chain, fallbackStrategy := some .moe }

/-- Oracle under which every strategy execution raises. -/
def c1AllFailExec : PipelineStrategy → Except String StrategyResult :=
  fun _ => .error "backend down"

/-- The default `PipelineConfig`. -/
def c1DefaultConfig : PipelineConfig := {}

/-- Modelled from the spec: the strategy-selection cascade exactly as the
spec words it (simple and no-synthesis to Ensemble; synthesis-required or
complex to MoE; expertise-required and moderate or complex to Chain;
highest complexity tier to Hybrid; default Ensemble), for comparison with
the auto branch of `selectStrategy`. -/
def specSelectAuto (a : QueryAnalysis) : PipelineStrategy :=
  if a.complexity = .simple ∧ ¬a.requiresSynthesis then .ensemble
  else if a.requiresSynthesis ∨ a.complexity = .complex then .moe
  else if a.requiresExpertise ∧ (a.complexity = .moderate ∨ a.complexity = .complex) then .chain
  else if a.complexity = .expert then .hybrid
  else .ensemble

/-- Modelled from the spec (amended boundaries): word-count tiers with
simple up to 20 words, moderate up to 50, complex above. -/
def specTier (wc : Nat) : QueryComplexity :=
  if wc ≤ 20 then .simple else if wc ≤ 50 then .moderate else .complex

/-- A 15-word query containing "comprehensive analysis" and no synthesis
indicator, for the C3 counterexample. -/
def c3Query15 : String :=
  "Please provide comprehensive analysis of the topic with many more details for the full report"

/-- A 60-word query containing "compare" and "integrate", for the C3
scenario witness. -/
def c3Query60 : String :=
  "compare integrate data data data data data data data data data data data data data data data data data data data data data data data data data data data data data data data data data data data data data data data data data data data data data data data data data data data data data data data data data data"

/-! ### Mixers (`core/mixers.py`).

Responses are association lists in insertion order (Python dictionaries),
weights an optional association list (`none` models Python `None`; Python
truthiness tests `if not weights` treat `None` and the empty dictionary
alike).  The synthesis model is a function parameter returning `Except`
(an `Except.error` models a raised exception in `generate`). -/

/-- Model of Python `next(iter(responses.values()))`. -/
def firstValue (responses : List (String × String)) : String :=
  ((responses.head?).map Prod.snd).getD ""

/-- Nearest integer with ties to even, mirroring the rounding that Python
`format` applies when printing one decimal place. -/
def roundHalfEven (q : ℚ) : ℤ :=
  let f := Rat.floor q
  let frac := q - (f : ℚ)
  if frac < 1/2 then f
  else if frac > 1/2 then f + 1
  else if f % 2 = 0 then f else f + 1

/-- Model of the Python format specifier `{:.1%}` applied to a weight:
the value times 100, printed with one decimal digit and a percent sign. -/
def fmtPercent1 (q : ℚ) : String :=
  let n := roundHalfEven (q * 1000)
  let sign := if n < 0 then "-" else ""
  let m := n.natAbs
  sign ++ toString (m / 10) ++ "." ++ toString (m % 10) ++ "%"

/-- Embedding of `DefaultMixer.mix`: the response of the first key
attaining the maximal weight, or the first response when no weights are
supplied or the best key is absent from the responses. -/
def defaultMix (_query : String) (responses : List (String × String))
    (weights : Option (List (String × ℚ))) : String :=
  match responses with
  | [] => ""
  | (_, v0) :: _ =>
    match weights with
    | none => v0
    | some [] => v0
    | some w =>
      match (firstMaxBy (fun p : String × ℚ => wget w p.1) w).map Prod.fst with
      | none => v0
      | some best =>
        match responses.lookup best with
        | some r => r
        | none => v0

/-- The `ConcatenationMixer` constructor arguments with their defaults. -/
structure ConcatenationMixerCfg where
  includeWeights : Bool := true
  separator : String := "\n\n"
deriving DecidableEq

/-- Source ordering used by `ConcatenationMixer.mix` and
`SynthesisMixer._format_weighted_responses`: keys sorted by descending
weight when a non-empty weight dictionary is supplied, else insertion
order. -/
def concatSortedSources (responses : List (String × String))
    (weights : Option (List (String × ℚ))) : List String :=
  match weights with
  | some (w0 :: wrest) =>
    sortDescBy (fun k => wget (w0 :: wrest) k) (responses.map Prod.fst)
  | _ => responses.map Prod.fst

/-- Header built by `ConcatenationMixer.mix` for one source. -/
def concatHeader (cfg : ConcatenationMixerCfg)
    (weights : Option (List (String × ℚ))) (source : String) : String :=
  match weights with
  | some (w0 :: wrest) =>
    if cfg.includeWeights ∧ (((w0 :: wrest).lookup source)).isSome then
      "[" ++ source ++ " (" ++ fmtPercent1 (wget (w0 :: wrest) source) ++ ")]:"
    else "[" ++ source ++ "]:"
  | _ => "[" ++ source ++ "]:"

/-- Embedding of `ConcatenationMixer.mix`: every response, in descending
weight order, prefixed with its bracketed source header; there is no
single-response fast path. -/
def concatenationMix (cfg : ConcatenationMixerCfg) (_query : String)
    (responses : List (String × String))
    (weights : Option (List (String × ℚ))) : String :=
  if responses.isEmpty then ""
  else
    String.intercalate cfg.separator
      ((concatSortedSources responses weights).map (fun source =>
        concatHeader cfg weights source ++ "\n" ++ ((responses.lookup source).getD "")))

/-- Header built by `SynthesisMixer._format_weighted_responses`. -/
def synthHeader (weights : Option (List (String × ℚ))) (source : String) : String :=
  match weights with
  | some (w0 :: wrest) =>
    if (((w0 :: wrest).lookup source)).isSome then
      "[" ++ source ++ " - Confidence: " ++ fmtPercent1 (wget (w0 :: wrest) source) ++ "]"
    else "[" ++ source ++ "]"
  | _ => "[" ++ source ++ "]"

/-- Embedding of `SynthesisMixer._format_weighted_responses`. -/
def formatWeightedResponses (responses : List (String × String))
    (weights : Option (List (String × ℚ))) : String :=
  String.intercalate "\n\n"
    ((concatSortedSources responses weights).map (fun source =>
      synthHeader weights source ++ "\n" ++ ((responses.lookup source).getD "")))

/-- Embedding of `SynthesisMixer._truncate_responses` (the source slices
`[:max_length-10]`, assumed called with `max_length` at least 10). -/
def truncateResponses (formatted : String) (maxLength : Nat) : String :=
  if formatted.length ≤ maxLength then formatted
  else String.mk (formatted.data.take (maxLength - 10)) ++ "\n\n[...]"

/-- The default synthesis prompt of `SynthesisMixer`, with the query and
formatted responses spliced into their placeholders. -/
def synthesisPrompt (query weightedResponses : String) : String :=
  "\nYou are tasked with synthesizing responses from multiple domain experts into a coherent, integrated response.\n\nOriginal query: "
    ++ query
    ++ "\n\nExpert responses:\n"
    ++ weightedResponses
    ++ "\n\nCreate a unified response that:\n1. Integrates insights from all relevant experts\n2. Resolves any contradictions or conflicts\n3. Provides a coherent narrative\n4. Gives appropriate weight to each domain based on relevance\n5. Directly addresses the original query\n\nSynthesized response:\n"

/-- Embedding of `SynthesisMixer.mix`: empty input yields the empty
string; a single response is returned unchanged before any model call; a
failing synthesis model degrades to `ConcatenationMixer`. -/
def synthesisMix (gen : String → Except String String)
    (maxInputLength : Option Nat) (query : String)
    (responses : List (String × String))
    (weights : Option (List (String × ℚ))) : String :=
  match responses with
  | [] => ""
  | [(_, v)] => v
  | _ =>
    let wr := formatWeightedResponses responses weights
    let wr := match maxInputLength with
      | some m => truncateResponses wr m
      | none => wr
    match gen (synthesisPrompt query wr) with
    | .ok s => pyStrip s
    | .error _ => concatenationMix {} query responses weights

/-- The `WeightedMixer` constructor arguments with their defaults. -/
structure WeightedMixerCfg where
  combinationMethod : String := "weighted_segments"
  segmentLength : Nat := 100
  overlapPenalty : ℚ := 1/10
deriving DecidableEq

/-- Distinct words of a string (Python `set(s.split())`), realised as the
deduplicated word list; only membership and cardinality are ever used. -/
def pyWordSet (s : String) : List String := (pyWords s).dedup

/-- Jaccard similarity of two deduplicated word lists, with the source
convention that an empty union scores 0. -/
def jaccardQ (w1 w2 : List String) : ℚ :=
  let inter := (w1.filter (fun x => w2.contains x)).length
  let uni := (w1 ++ w2.filter (fun x => ¬ w1.contains x)).length
  if uni = 0 then 0 else (inter : ℚ) / (uni : ℚ)

/-- Embedding of `WeightedMixer._has_significant_overlap`: true when some
already-used text has Jaccard word overlap with the segment strictly
above the overlap penalty. -/
def hasSignificantOverlap (penalty : ℚ) (segment : String)
    (used : List String) : Bool :=
  let segLower := pyStrip (strLower segment)
  used.any (fun u =>
    if segLower.length > 0 ∧ u.length > 0 then
      let sw := pyWordSet segLower
      let uw := pyWordSet u
      if ¬ sw.isEmpty ∧ ¬ uw.isEmpty then
        decide (jaccardQ sw uw > penalty)
      else false
    else false)

/-- Embedding of `WeightedMixer._sentences_similar` (default threshold
0.7 at its only call site). -/
def sentencesSimilar (threshold : ℚ) (s1 s2 : String) : Bool :=
  if s1.isEmpty ∨ s2.isEmpty then false
  else
    let w1 := pyWordSet s1
    let w2 := pyWordSet s2
    if w1.isEmpty ∨ w2.isEmpty then false
    else decide (jaccardQ w1 w2 ≥ threshold)

/-- Word-accumulating pass of `WeightedMixer._split_into_segments`:
greedily packs words into segments of bounded character length. -/
def splitSegmentsAux (segmentLength : Nat) :
    List String → List String → Nat → List String
  | [], currentSeg, _ =>
    if currentSeg.isEmpty then [] else [String.intercalate " " currentSeg.reverse]
  | w :: ws, currentSeg, currentLen =>
    if currentLen + w.length + 1 ≤ segmentLength then
      splitSegmentsAux segmentLength ws (w :: currentSeg) (currentLen + w.length + 1)
    else
      if currentSeg.isEmpty then splitSegmentsAux segmentLength ws [w] w.length
      else String.intercalate " " currentSeg.reverse ::
        splitSegmentsAux segmentLength ws [w] w.length

/-- Embedding of `WeightedMixer._split_into_segments`. -/
def splitIntoSegments (text : String) (segmentLength : Nat) : List String :=
  splitSegmentsAux segmentLength (pyWords text) [] 0

/-- Inner loop of `_weighted_segments_combination` over one response:
collect the segments without significant overlap, threading the set of
used (lowercased, stripped) segment texts. -/
def collectFromSegments (penalty : ℚ) (weight : ℚ) (source : String) :
    List String → List String → List (String × ℚ × String) × List String
  | [], used => ([], used)
  | seg :: segs, used =>
    if hasSignificantOverlap penalty seg used then
      collectFromSegments penalty weight source segs used
    else
      let res := collectFromSegments penalty weight source segs
        (pyStrip (strLower seg) :: used)
      ((seg, weight, source) :: res.1, res.2)

/-- Outer loop of `_weighted_segments_combination` over the
weight-sorted responses. -/
def collectAllSegments (penalty : ℚ) (segLen : Nat) :
    List (String × ℚ × String) → List String → List (String × ℚ × String)
  | [], _ => []
  | (content, weight, source) :: rest, used =>
    let r := collectFromSegments penalty weight source
      (splitIntoSegments content segLen) used
    r.1 ++ collectAllSegments penalty segLen rest r.2

/-- Greedy prefix of the weight-sorted segments whose cumulative
character length stays within the cap (the source loop breaks at the
first segment that would overflow). -/
def takeSegmentsGreedy (maxLen : ℚ) :
    List (String × ℚ × String) → ℚ → List String
  | [], _ => []
  | (seg, _, _) :: rest, total =>
    if total + (seg.length : ℚ) ≤ maxLen then
      seg :: takeSegmentsGreedy maxLen rest (total + (seg.length : ℚ))
    else []

/-- Embedding of `WeightedMixer._weighted_segments_combination`: the cap
is 1.2 times the longest single response length. -/
def weightedSegmentsCombination (cfg : WeightedMixerCfg)
    (responses : List (String × String)) (weights : List (String × ℚ)) : String :=
  let weightedResponses := responses.map (fun p => (p.2, wget weights p.1, p.1))
  let sorted := sortDescBy (fun t => t.2.1) weightedResponses
  let combined := collectAllSegments cfg.overlapPenalty cfg.segmentLength sorted []
  let combinedSorted := sortDescBy (fun t => t.2.1) combined
  let maxLen : ℚ :=
    (((responses.map (fun p => p.2.length)).foldl max 0 : Nat) : ℚ) * (12/10)
  String.intercalate " " (takeSegmentsGreedy maxLen combinedSorted 0)

/-- Embedding of `WeightedMixer._split_into_sentences`: split on runs of
sentence punctuation, strip, drop empties. -/
def pySentences (text : String) : List String :=
  ((pySplitAnyChar ['.', '!', '?'] text).map pyStrip).filter (fun s => ¬ s.isEmpty)

/-- Near-duplicate elimination pass of `_sentence_selection_combination`,
threading the set of used lowercased sentences. -/
def selectSentences : List (String × ℚ × String) → List String → List String
  | [], _ => []
  | (sentence, _, _) :: rest, used =>
    let sl := pyStrip (strLower sentence)
    if used.any (fun u => sentencesSimilar (7/10) sl u) then
      selectSentences rest used
    else sentence :: selectSentences rest (sl :: used)

/-- Embedding of `WeightedMixer._sentence_selection_combination`. -/
def sentenceSelectionCombination (responses : List (String × String))
    (weights : List (String × ℚ)) : String :=
  let ws := responses.flatMap (fun p =>
    (pySentences p.2).map (fun s => (s, wget weights p.1, p.1)))
  String.intercalate " " (selectSentences (sortDescBy (fun t => t.2.1) ws) [])

/-- Split on the two-character separator used by Python
`response.split("\n\n")`. -/
def splitParaAux : List Char → List Char → List (List Char)
  | [], acc => [acc.reverse]
  | c :: cs, acc =>
    if startsWithL ['\n', '\n'] (c :: cs) then
      acc.reverse :: splitParaAux (cs.drop 1) []
    else splitParaAux cs (c :: acc)
termination_by l _ => l.length
decreasing_by
  · simp only [List.length_cons]
    have := List.length_drop 1 cs
    omega
  · simp [List.length_cons]

/-- Paragraphs of a response: split on blank lines, strip, drop empties. -/
def pyParagraphs (text : String) : List String :=
  (((splitParaAux text.data []).map String.mk).map pyStrip).filter
    (fun s => ¬ s.isEmpty)

/-- Deduplication keeping the first occurrence of every element, used to
model Python dictionary key insertion order. -/
def dedupKeepFirst : List Nat → List Nat
  | [] => []
  | x :: xs => x :: dedupKeepFirst (xs.filter (fun y => y ≠ x))
termination_by l => l.length
decreasing_by
  simp only [List.length_cons]
  have := List.length_filter_le (fun y => decide (y ≠ x)) xs
  omega

/-- Embedding of `WeightedMixer._paragraph_blend_combination`: paragraphs
are grouped by index modulo 3 and the heaviest paragraph of each group
(in first-encounter group order) is kept. -/
def paragraphBlendCombination (responses : List (String × String))
    (weights : List (String × ℚ)) : String :=
  let groups := responses.flatMap (fun p =>
    ((pyParagraphs p.2).enum).map (fun iq => (iq.2, wget weights p.1, p.1, iq.1 % 3)))
  let topics := dedupKeepFirst (groups.map (fun t => t.2.2.2))
  let finalParas := topics.filterMap (fun topic =>
    let tps := groups.filter (fun t => t.2.2.2 == topic)
    ((sortDescBy (fun t => t.2.1) tps).head?).map (fun t => t.1))
  String.intercalate "\n\n" finalParas

/-- Embedding of `WeightedMixer.mix`: single responses return unchanged;
missing or empty weights become equal weights; weights are normalized
when their total is positive; an unknown combination method raises
`ValueError` (modelled as `Except.error`). -/
def weightedMix (cfg : WeightedMixerCfg) (_query : String)
    (responses : List (String × String))
    (weights : Option (List (String × ℚ))) : Except String String :=
  match responses with
  | [] => .ok ""
  | [(_, v)] => .ok v
  | _ =>
    let w0 := match weights with
      | none => responses.map (fun p => (p.1, (1 : ℚ) / responses.length))
      | some [] => responses.map (fun p => (p.1, (1 : ℚ) / responses.length))
      | some w => w
    let total := (w0.map Prod.snd).sum
    let w1 := if total > 0 then w0.map (fun p => (p.1, p.2 / total)) else w0
    if cfg.combinationMethod = "weighted_segments" then
      .ok (weightedSegmentsCombination cfg responses w1)
    else if cfg.combinationMethod = "sentence_selection" then
      .ok (sentenceSelectionCombination responses w1)
    else if cfg.combinationMethod = "paragraph_blend" then
      .ok (paragraphBlendCombination responses w1)
    else .error ("Unknown combination method: " ++ cfg.combinationMethod)

/-- The `ConsensusBasedMixer` constructor arguments with their defaults. -/
structure ConsensusMixerCfg where
  consensusThreshold : ℚ := 3/5
  conflictResolution : String := "weight_based"
deriving DecidableEq

/-- Embedding of `ConsensusBasedMixer._extract_key_points`: sentences on
periods, stripped, non-empty, longer than 20 characters, first five. -/
def extractKeyPoints (response : String) : List String :=
  let sentences := ((pySplitChar '.' response).map pyStrip).filter (fun s => ¬ s.isEmpty)
  (sentences.filter (fun s => s.length > 20)).take 5

/-- Embedding of `ConsensusBasedMixer._points_similar` (threshold 0.5 at
every call site): Jaccard similarity of lowercased word sets. -/
def pointsSimilar (point1 point2 : String) : Bool :=
  if point1.isEmpty ∨ point2.isEmpty then false
  else
    let w1 := pyWordSet (strLower point1)
    let w2 := pyWordSet (strLower point2)
    if w1.isEmpty ∨ w2.isEmpty then false
    else decide (jaccardQ w1 w2 ≥ 1/2)

/-- The flattened `(point, source, weight)` list built at the start of
`_find_consensus`; absent weights default to 1.0 there. -/
def allPointsOf (keyPoints : List (String × List String))
    (weights : List (String × ℚ)) : List (String × String × ℚ) :=
  keyPoints.flatMap (fun p =>
    p.2.map (fun pt => (pt, p.1, ((weights.lookup p.1).getD 1))))

/-- The grouping pass of `_find_consensus`: repeatedly take the first
ungrouped point as leader and collect every later ungrouped point similar
to the leader (the source marks indices in a `used_points` set; taking
the leader and partitioning the remainder is the same computation). -/
def groupPoints : List (String × String × ℚ) → List (List (String × String × ℚ))
  | [] => []
  | p :: rest =>
    (p :: rest.filter (fun q => pointsSimilar p.1 q.1)) ::
      groupPoints (rest.filter (fun q => !(pointsSimilar p.1 q.1)))
termination_by l => l.length
decreasing_by
  simp only [List.length_cons]
  have := List.length_filter_le (fun q => !(pointsSimilar p.1 q.1)) rest
  omega

/-- The consensus size test of `_find_consensus`: the number of points in
the group (counted with multiplicity) at least the number of experts
times the consensus threshold. -/
def groupIsConsensus (groupSize numExperts : Nat) (threshold : ℚ) : Bool :=
  decide ((groupSize : ℚ) ≥ (numExperts : ℚ) * threshold)

/-- Embedding of `ConsensusBasedMixer._find_consensus`: group the points,
keep the groups passing the size test, and report the highest-weighted
point of each (first maximum, as Python `max`). -/
def findConsensus (threshold : ℚ) (keyPoints : List (String × List String))
    (weights : List (String × ℚ)) : List String :=
  let groups := groupPoints (allPointsOf keyPoints weights)
  (groups.filter (fun g => groupIsConsensus g.length keyPoints.length threshold)).filterMap
    (fun g => (firstMaxBy (fun t => t.2.2) g).map (fun t => t.1))

/-- Embedding of `ConsensusBasedMixer._resolve_conflicts`: for
weight-based resolution, the top two points of each of the two
highest-weighted sources; every other method yields nothing. -/
def resolveConflicts (cfg : ConsensusMixerCfg)
    (keyPoints : List (String × List String))
    (weights : List (String × ℚ)) : List String :=
  if cfg.conflictResolution = "weight_based" then
    ((sortDescBy (fun p : String × ℚ => p.2) weights).take 2).flatMap (fun p =>
      match keyPoints.lookup p.1 with
      | some pts => pts.take 2
      | none => [])
  else []

/-- Embedding of `ConsensusBasedMixer._build_unified_response`. -/
def buildUnifiedResponse (consensusPoints conflictResolutions : List String) : String :=
  let parts1 := if consensusPoints.isEmpty then []
    else "Based on expert consensus:" :: consensusPoints.map (fun p => "• " ++ p)
  let parts2 := if conflictResolutions.isEmpty then ([] : List String)
    else (if parts1.isEmpty then "Key insights:" else "\nAdditional considerations:") ::
      conflictResolutions.map (fun p => "• " ++ p)
  let parts := parts1 ++ parts2
  if parts.isEmpty then "No clear consensus found among expert responses."
  else String.intercalate "\n" parts

/-- Embedding of `ConsensusBasedMixer.mix`: single responses return
unchanged; otherwise key points are extracted per source and the unified
response is built from consensus and conflict resolution (a missing
weight dictionary becomes the empty one). -/
def consensusMix (cfg : ConsensusMixerCfg) (_query : String)
    (responses : List (String × String))
    (weights : Option (List (String × ℚ))) : String :=
  match responses with
  | [] => ""
  | [(_, v)] => v
  | _ =>
    let keyPoints := responses.map (fun p => (p.1, extractKeyPoints p.2))
    let w := weights.getD []
    buildUnifiedResponse (findConsensus cfg.consensusThreshold keyPoints w)
      (resolveConflicts cfg keyPoints w)

/-- Key point shared by experts A and B in the C8 spec scenario. -/
def c8PointA : String := "regular training improves aerobic capacity significantly"

/-- Near-duplicate of `c8PointA` contributed by expert B (word-set
Jaccard similarity 6/7). -/
def c8PointB : String := "regular training improves the aerobic capacity significantly"

/-- Unrelated key point contributed by a single expert. -/
def c8PointC : String := "sleep quality matters for recovery outcomes"

/-- Unrelated key point contributed by another single expert. -/
def c8PointD : String := "quantum mechanics explains particle behavior patterns"

/-- Key points of three experts, one point each, with A and B agreeing:
the 2-of-3 versus 1-of-3 spec scenario. -/
def c8SpecKeyPoints : List (String × List String) :=
  [("A", [c8PointA]), ("B", [c8PointB]), ("C", [c8PointC])]

/-- A response whose period-split key points are the same long sentence
twice. -/
def c8RespA : String := c8PointA ++ ". " ++ c8PointA ++ "."

/-- Key points extracted from three expert responses where expert A
contributes the same point twice and B, C contribute unrelated points. -/
def c8MultiKeyPoints : List (String × List String) :=
  [("A", extractKeyPoints c8RespA),
   ("B", extractKeyPoints (c8PointC ++ ".")),
   ("C", extractKeyPoints (c8PointD ++ "."))]

/-! ### EmbeddingRouter (`core/routers.py`).

The cosine-similarity scores of `_calculate_scores` come from the
external embedding model and enter as the `scores` argument (one entry
per available model with a domain embedding, in iteration order).
`numpy.exp` is transcendental, so it enters as a parameter `expf`
constrained to positivity where needed; on the concrete inputs below it
is only ever evaluated at `0`, where the true exponential is exactly 1. -/

/-- Maximum of a list of rationals (`numpy.max`, called on non-empty
data in the source path). -/
def listMax : List ℚ → ℚ
  | [] => 0
  | x :: xs => xs.foldl max x

/-- The temperature-scaled softmax pass of
`EmbeddingRouter.route_multiple`: optionally divide by the temperature,
subtract the maximum, apply the exponential, normalize by the sum. -/
def softmaxScores (expf : ℚ → ℚ) (temperature : ℚ) (scores : List ℚ) : List ℚ :=
  let sv := if temperature ≠ 1 then scores.map (fun s => s / temperature) else scores
  let m := listMax sv
  let es := sv.map (fun s => expf (s - m))
  let total := es.sum
  es.map (fun e => e / total)

/-- Embedding of `EmbeddingRouter.route_multiple` after similarity
scoring: empty scores yield no selection; otherwise the softmax scores
are paired with the model names, sorted descending, truncated to the
first `k`, and filtered to those at or above the router threshold. -/
def routeMultipleEmbedding (expf : ℚ → ℚ) (temperature threshold : ℚ) (k : Nat)
    (scores : List (String × ℚ)) : List (String × ℚ) :=
  match scores with
  | [] => []
  | _ =>
    let sm := softmaxScores expf temperature (scores.map Prod.snd)
    let modelScores := (scores.map Prod.fst).zip sm
    let sorted := sortDescBy (fun p : String × ℚ => p.2) modelScores
    (sorted.take k).filter (fun p => decide (p.2 ≥ threshold))

/-- Two equal similarity scores, as for two domains whose embeddings are
equally close to the query. -/
def c4EqualScores : List (String × ℚ) := [("alpha", 1/2), ("beta", 1/2)]

/-! ### ModelRegistry (`core/registry.py`).

The registry holds two Python dictionaries keyed by model name, modelled
as association lists in insertion order; Python dictionary assignment
replaces an existing binding in place.  `create_model` performs backend
instantiation and may raise; it enters as a function parameter, and the
stored model type is a type parameter `M`. -/

/-- The `ModelConfig` fields that `add_model` always populates (backend
credentials and generation parameters are payload carried by
`create_model` and play no role in registry bookkeeping). -/
structure RegModelConfig where
  name : String
  engine : String
  modelName : String
deriving DecidableEq

/-- The two dictionaries owned by `ModelRegistry`. -/
structure RegState (M : Type) where
  models : List (String × M)
  configs : List (String × RegModelConfig)
deriving DecidableEq

/-- Python dictionary assignment `d[k] = v`: replace the first binding
with key `k` in place, otherwise append. -/
def listUpsert {β : Type} (k : String) (v : β) : List (String × β) → List (String × β)
  | [] => [(k, v)]
  | (k', v') :: rest =>
    if k' = k then (k, v) :: rest else (k', v') :: listUpsert k v rest

/-- Embedding of `ModelRegistry.add_model`: a name already present only
produces a log warning; `create_model` failure re-raises; on success the
model and its config are stored, replacing any previous binding. -/
def addModel {M : Type} (createModel : RegModelConfig → Except String M)
    (st : RegState M) (cfg : RegModelConfig) : Except String (RegState M) :=
  match createModel cfg with
  | .error e => .error e
  | .ok m => .ok { models := listUpsert cfg.name m st.models,
                   configs := listUpsert cfg.name cfg st.configs }

/-- Embedding of `ModelRegistry.get`: a missing name raises `KeyError`. -/
def regGet {M : Type} (st : RegState M) (name : String) : Except String M :=
  match st.models.lookup name with
  | some m => .ok m
  | none => .error ("Model not found in registry: " ++ name)

/-- A registry holding one model under the name `a`. -/
def c6Registry : RegState String :=
  { models := [("a", "model-one")],
    configs := [("a", { name := "a", engine := "custom", modelName := "m1" })] }

/-- A `create_model` collaborator that always succeeds. -/
def c6CreateOk : RegModelConfig → Except String String :=
  fun cfg => .ok ("created:" ++ cfg.modelName)

/-- A second configuration re-registering the name `a`. -/
def c6Cfg2 : RegModelConfig := { name := "a", engine := "custom", modelName := "m2" }

/-! ### Expert-call fan-out (`patterns/ensemble.py`, `patterns/moe.py`).

One expert call either returns text or fails, by a raised exception or an
`asyncio` timeout; both failure kinds make the fan-out skip that expert.
The behaviour of one expert is a function from the attempt number to that
attempt's outcome, so that retry behaviour is observable.  The parallel
and the sequential branch of both fan-out loops collect the same response
dictionary (they differ only in scheduling), so one definition models
both branches and the `parallel_execution` flag does not appear. -/

/-- Failure of a single expert call: timeout or raised exception. -/
inductive CallErr where
  | timeout
  | failure (msg : String)
deriving DecidableEq

/-- The retry loop of `Ensemble._generate_single_response`, carrying the
attempt index and the remaining attempt budget: a failing non-final
attempt sleeps `retry_delay * (attempt + 1)` and retries, the final
failure re-raises, and an exhausted budget raises the unreachable
`RuntimeError` of the source.  Returns the outcome and the delays slept. -/
def attemptCallAux (behavior : Nat → Except CallErr String) (retryDelay : ℚ) :
    Nat → Nat → Except CallErr String × List ℚ
  | _, 0 => (.error (.failure "All attempts failed for model"), [])
  | attempt, remaining + 1 =>
    match behavior attempt with
    | .ok r => (.ok r, [])
    | .error e =>
      if remaining = 0 then (.error e, [])
      else
        let res := attemptCallAux behavior retryDelay (attempt + 1) remaining
        (res.1, retryDelay * ((attempt + 1 : Nat) : ℚ) :: res.2)

/-- Embedding of `Ensemble._generate_single_response`: up to
`max_retries` attempts starting at attempt 0. -/
def attemptCall (behavior : Nat → Except CallErr String) (retryDelay : ℚ)
    (maxRetries : Nat) : Except CallErr String × List ℚ :=
  attemptCallAux behavior retryDelay 0 maxRetries

/-- Shared shape of `Ensemble._generate_responses` and
`MixtureOfExperts._generate_expert_responses`: call every selected
expert in order and keep the successful responses, silently skipping
timeouts and errors. -/
def fanOutResponses (call : String → Except CallErr String)
    (selected : List (String × ℚ)) : List (String × String) :=
  selected.filterMap (fun p =>
    match call p.1 with
    | .ok r => some (p.1, r)
    | .error _ => none)

/-- The Ensemble fan-out: each expert call runs the retry loop. -/
def ensembleFanOut (behavior : String → Nat → Except CallErr String)
    (retryDelay : ℚ) (maxRetries : Nat)
    (selected : List (String × ℚ)) : List (String × String) :=
  fanOutResponses (fun name => (attemptCall (behavior name) retryDelay maxRetries).1) selected

/-- The MoE fan-out: `_generate_single_expert_response` makes exactly one
call to the expert, with no retry loop and no delay. -/
def moeFanOut (behavior : String → Nat → Except CallErr String)
    (selected : List (String × ℚ)) : List (String × String) :=
  fanOutResponses (fun name => behavior name 0) selected

/-- An expert whose first attempt fails with a transient error and whose
later attempts succeed. -/
def c5SecondTryBehavior : String → Nat → Except CallErr String :=
  fun _ attempt => if attempt = 0 then .error (.failure "transient") else .ok "recovered"

/-! ### MixtureOfExperts (`patterns/moe.py`) and Ensemble generate
(`patterns/ensemble.py`).

The confidence estimator, expert backends, meta expert and mixer are
collaborators entering as function parameters.  Routing inside
`Ensemble.generate` (`route`/`route_multiple`) is likewise a collaborator
summarised by its result list, and `_handle_fallback` (which may draw a
random model) is summarised by its outcome.  Python `x or default`
treats `0`/`0.0` as falsy, modelled by `pyOrNat`/`pyOrRat`. -/

/-- Python `x or default` for an optional integer argument. -/
def pyOrNat (o : Option Nat) (d : Nat) : Nat :=
  match o with
  | some x => if x = 0 then d else x
  | none => d

/-- Python `x or default` for an optional float argument. -/
def pyOrRat (o : Option ℚ) (d : ℚ) : ℚ :=
  match o with
  | some x => if x = 0 then d else x
  | none => d

/-- The `MoEConfig` dataclass fields that drive the modelled behaviour,
with their source defaults (`parallel_execution` and `timeout` are folded
into the call-outcome model). -/
structure MoEConfig where
  confidenceThreshold : ℚ := 1/10
  maxExperts : Nat := 5
  temperature : ℚ := 1
  aggregationMethod : String := "weighted"
  normalizeWeights : Bool := true
  useMetaExpert : Bool := false
deriving DecidableEq

/-- Embedding of `MixtureOfExperts._select_experts`: filter the scores by
the threshold (an empty result short-circuits before any aggregation);
`weighted` softmax-normalizes the qualifying scores and takes the top
`max_experts`; `top_k` and `threshold` sort and truncate; an unknown
aggregation method raises `ValueError`. -/
def selectExperts (expf : ℚ → ℚ) (cfg : MoEConfig)
    (confidenceScores : List (String × ℚ)) (maxExperts : Nat) (threshold : ℚ) :
    Except String (List (String × ℚ)) :=
  let qualified := confidenceScores.filter (fun p => decide (p.2 ≥ threshold))
  match qualified with
  | [] => .ok []
  | q0 :: qrest =>
    if cfg.aggregationMethod = "weighted" then
      let sm := softmaxScores expf cfg.temperature ((q0 :: qrest).map Prod.snd)
      let weighted := ((q0 :: qrest).map Prod.fst).zip sm
      .ok ((sortDescBy (fun p : String × ℚ => p.2) weighted).take maxExperts)
    else if cfg.aggregationMethod = "top_k" then
      .ok ((sortDescBy (fun p : String × ℚ => p.2) (q0 :: qrest)).take maxExperts)
    else if cfg.aggregationMethod = "threshold" then
      .ok ((sortDescBy (fun p : String × ℚ => p.2) (q0 :: qrest)).take maxExperts)
    else .error ("Unknown aggregation method: " ++ cfg.aggregationMethod)

/-- Model of the Python format specifier `{:.2f}`: two decimal digits. -/
def fmtFloat2 (q : ℚ) : String :=
  let n := roundHalfEven (q * 100)
  let sign := if n < 0 then "-" else ""
  let m := n.natAbs
  let fracPart := m % 100
  sign ++ toString (m / 100) ++ "."
    ++ (if fracPart < 10 then "0" else "") ++ toString fracPart

/-- The per-expert lines of the meta-expert prompt built by
`MixtureOfExperts._apply_meta_expert`. -/
def metaExpertInfo (selectedExperts : List (String × ℚ))
    (expertResponses : List (String × String)) : List String :=
  selectedExperts.flatMap (fun p =>
    match expertResponses.lookup p.1 with
    | some r =>
      ["Expert: " ++ p.1 ++ " (confidence: " ++ fmtFloat2 p.2 ++ ")",
       "Response: " ++ r, ""]
    | none => [])

/-- The meta-expert prompt of `_apply_meta_expert`, with the query,
expert lines and mixed response spliced into their placeholders. -/
def metaPrompt (query mixedResponse : String)
    (expertResponses : List (String × String))
    (selectedExperts : List (String × ℚ)) : String :=
  "\nAs a meta-expert, review and refine the following synthesized response based on the expert inputs.\n\nOriginal Query: "
    ++ query
    ++ "\n\nExpert Responses:\n"
    ++ String.intercalate "\n" (metaExpertInfo selectedExperts expertResponses)
    ++ "\n\nSynthesized Response: "
    ++ mixedResponse
    ++ "\n\nPlease provide a refined response that:\n1. Incorporates the best insights from all experts\n2. Resolves any contradictions\n3. Provides a coherent and comprehensive answer\n4. Maintains appropriate confidence levels\n\nRefined Response:\n"

/-- Embedding of `MixtureOfExperts._apply_meta_expert`: a successful
meta call replaces the mixed response with the stripped refinement, any
failure degrades silently to the unrefined response. -/
def applyMetaExpert (meta : String → Except CallErr String)
    (query mixedResponse : String)
    (expertResponses : List (String × String))
    (selectedExperts : List (String × ℚ)) : String :=
  match meta (metaPrompt query mixedResponse expertResponses selectedExperts) with
  | .ok refined => pyStrip refined
  | .error _ => mixedResponse

/-- Structured results of `MixtureOfExperts.generate`. -/
inductive MoEResult where
  | noModels (text : String)
  | noExpertsSelected (text : String)
  | errorResult (text : String)
  | answer (text : String)
deriving DecidableEq

/-- Result of one `MixtureOfExperts.generate` call together with the
list of experts whose generate capability was invoked. -/
structure MoEOutcome where
  result : MoEResult
  invoked : List String
deriving DecidableEq

/-- Embedding of `MixtureOfExperts.generate`: no available models and no
selected experts return their structured results before any expert call;
a single surviving response bypasses the mixer; surviving weights are
normalized to sum 1 when configured; the optional meta-expert pass runs
last. -/
def moeGenerate (expf : ℚ → ℚ) (cfg : MoEConfig)
    (available : List String)
    (estimate : List String → List (String × ℚ))
    (behavior : String → Nat → Except CallErr String)
    (metaExpert : Option (String → Except CallErr String))
    (mixer : String → List (String × String) → Option (List (String × ℚ)) → String)
    (query : String) (topK : Option Nat) (confidenceThreshold : Option ℚ) :
    MoEOutcome :=
  match available with
  | [] => ⟨.noModels "No expert models are currently available", []⟩
  | _ =>
    let confidenceScores := estimate available
    match selectExperts expf cfg confidenceScores (pyOrNat topK cfg.maxExperts)
        (pyOrRat confidenceThreshold cfg.confidenceThreshold) with
    | .error e => ⟨.errorResult ("Error: " ++ e), []⟩
    | .ok [] => ⟨.noExpertsSelected "No experts were selected for this query", []⟩
    | .ok (s0 :: srest) =>
      let responses := moeFanOut behavior (s0 :: srest)
      let final := match responses with
        | [(_, r)] => r
        | _ =>
          let weights := (s0 :: srest).filter (fun p => (responses.lookup p.1).isSome)
          let weights := if cfg.normalizeWeights ∧ ¬weights.isEmpty then
              let total := (weights.map Prod.snd).sum
              if total > 0 then weights.map (fun p => (p.1, p.2 / total)) else weights
            else weights
          mixer query responses (some weights)
      let final := if cfg.useMetaExpert then
          match metaExpert with
          | some meta => applyMetaExpert meta query final responses (s0 :: srest)
          | none => final
        else final
      ⟨.answer final, (s0 :: srest).map Prod.fst⟩

/-- The `EnsembleConfig` dataclass fields that drive the modelled
behaviour, with their source defaults. -/
structure EnsembleConfig where
  maxRetries : Nat := 3
  retryDelay : ℚ := 1
deriving DecidableEq

/-- Structured results of `Ensemble.generate`. -/
inductive EnsResult where
  | noModels (text : String)
  | fallbackResult (text : String)
  | answer (text : String)
deriving DecidableEq

/-- Embedding of `Ensemble.generate` after routing: no available models
returns the structured no-models result; empty routing hands over to the
fallback policy (whose outcome, possibly randomized, is the
`fallbackOutcome` collaborator); otherwise the routed experts are fanned
out with retries, a single surviving response is returned directly, and
multiple survivors are mixed with the routing weights of the surviving
experts. -/
def ensembleGenerate (cfg : EnsembleConfig)
    (mixer : String → List (String × String) → Option (List (String × ℚ)) → String)
    (available : List String)
    (routed : List (String × ℚ))
    (behavior : String → Nat → Except CallErr String)
    (fallbackOutcome : EnsResult)
    (query : String) : EnsResult :=
  match available with
  | [] => .noModels "No models are currently available"
  | _ =>
    match routed with
    | [] => fallbackOutcome
    | r0 :: rrest =>
      let responses := ensembleFanOut behavior cfg.retryDelay cfg.maxRetries (r0 :: rrest)
      match responses with
      | [(_, r)] => .answer r
      | _ =>
        let weights := (r0 :: rrest).filter (fun p => (responses.lookup p.1).isSome)
        .answer (mixer query responses (some weights))

/-- A confidence estimator whose scores all fall below 0.9. -/
def c7Estimate : List String → List (String × ℚ) :=
  fun _ => [("e1", 1/2), ("e2", 7/10)]

/-- A mixer stub whose output is recognisable, to show it is never
consulted on the paths under study. -/
def c10Mixer : String → List (String × String) → Option (List (String × ℚ)) → String :=
  fun _ _ _ => "MIXED-BY-MIXER"

/-- MoE configuration with the meta-expert pass enabled. -/
def c10MetaCfg : MoEConfig := { useMetaExpert := true }

/-! ### SummarizingChain (`core/chains.py`).

Chain models are named generate functions returning `Except` (an error
models a raised exception).  The modelled prompt path is the
position-based default templates of `Chain._format_prompt`; per-model
template overrides and the metadata mapping that only they consume are
outside the modelled paths, as is the `max_context_length` truncation
that `SummarizingChain.generate` does not perform. -/

/-- The chain context (`ChainContext`): the original query and the
accumulated responses in order. -/
structure ChainCtx where
  query : String
  responses : List String
deriving DecidableEq

/-- Embedding of `Chain._format_all_responses`. -/
def formatAllResponses (ctx : ChainCtx) : String :=
  match ctx.responses with
  | [] => "None"
  | _ =>
    String.intercalate "\n\n" ((ctx.responses.enum).map (fun p =>
      "Analysis " ++ toString (p.1 + 1) ++ ":\n" ++ p.2))

/-- Embedding of `Chain._format_prompt` over the default position-based
templates: the first step sends the query alone, the last step sends the
joined history, every middle step sends the immediately preceding
response, always with the original query. -/
def formatPrompt (ctx : ChainCtx) (step total : Nat) : String :=
  if step = 0 then ctx.query
  else if step = total - 1 then
    "Previous analyses:\n" ++ formatAllResponses ctx
      ++ "\n\nOriginal query: " ++ ctx.query
      ++ "\n\nSynthesize the above analyses into a comprehensive, integrated response."
  else
    "Previous analysis: " ++ (ctx.responses.getLast?.getD "")
      ++ "\n\nOriginal query: " ++ ctx.query
      ++ "\n\nProvide your additional insights and analysis."

/-- Embedding of `SummarizingChain._should_summarize`: an empty context
never summarizes; otherwise the cumulative character length of the
accumulated responses must strictly exceed the threshold. -/
def shouldSummarize (summaryThreshold : Nat) (ctx : ChainCtx) : Bool :=
  match ctx.responses with
  | [] => false
  | _ => decide ((ctx.responses.map String.length).sum > summaryThreshold)

/-- The summarization prompt template of `SummarizingChain`, with the
joined context and target length spliced in. -/
def summaryPrompt (summaryTargetLength : Nat) (ctx : ChainCtx) : String :=
  "\nSummarize the following analysis concisely while preserving all key insights and important details:\n\n"
    ++ formatAllResponses ctx
    ++ "\n\nSummary (target length: ~" ++ toString summaryTargetLength
    ++ " characters):\n"

/-- The summarizer resolution of `SummarizingChain._summarize_context`:
the configured summarizer, else the last chain model. -/
def resolveSummarizer (summarizer : Option (String → Except String String))
    (models : List (String × (String → Except String String))) :
    Option (String → Except String String) :=
  match summarizer with
  | some g => some g
  | none => (models.getLast?).map Prod.snd

/-- Embedding of `SummarizingChain._summarize_context`: with a resolved
summarizer whose call succeeds, the entire accumulated response list is
replaced by the single summary; a missing summarizer, an empty context or
a summarizer failure leave the context unchanged. -/
def summarizeContext (summarizer : Option (String → Except String String))
    (models : List (String × (String → Except String String)))
    (targetLength : Nat) (ctx : ChainCtx) : ChainCtx :=
  match ctx.responses with
  | [] => ctx
  | _ =>
    match resolveSummarizer summarizer models with
    | none => ctx
    | some f =>
      match f (summaryPrompt targetLength ctx) with
      | .ok summary => { ctx with responses := [summary] }
      | .error _ => ctx

/-- The context a `SummarizingChain` step builds its prompt from: the
accumulated context, summarized first when the step is past the first
and the threshold is exceeded. -/
def stepContext (summarizer : Option (String → Except String String))
    (models : List (String × (String → Except String String)))
    (targetLength summaryThreshold : Nat) (i : Nat) (ctx : ChainCtx) : ChainCtx :=
  if i > 0 ∧ shouldSummarize summaryThreshold ctx then
    summarizeContext summarizer models targetLength ctx
  else ctx

/-- The step loop of `SummarizingChain.generate`: summarize when due,
format the prompt, call the model, append the response; a failing model
raises when `stop_on_error` is set and otherwise appends the bracketed
error placeholder. -/
def summarizingChainGo (stopOnError : Bool)
    (summarizer : Option (String → Except String String))
    (modelsAll : List (String × (String → Except String String)))
    (targetLength summaryThreshold : Nat) :
    List (String × (String → Except String String)) → Nat → ChainCtx →
      Except String ChainCtx
  | [], _, ctx => .ok ctx
  | (name, gen) :: rest, i, ctx =>
    let ctx1 := stepContext summarizer modelsAll targetLength summaryThreshold i ctx
    let prompt := formatPrompt ctx1 i modelsAll.length
    match gen prompt with
    | .ok response =>
      summarizingChainGo stopOnError summarizer modelsAll targetLength summaryThreshold
        rest (i + 1) { ctx1 with responses := ctx1.responses ++ [response] }
    | .error e =>
      if stopOnError then .error e
      else
        summarizingChainGo stopOnError summarizer modelsAll targetLength summaryThreshold
          rest (i + 1)
          { ctx1 with responses := ctx1.responses ++ ["[Error in " ++ name ++ ": " ++ e ++ "]"] }

/-- Embedding of `SummarizingChain.generate`: run the steps from the
initial context and return the last response (empty string when there is
none). -/
def summarizingChainGenerate (stopOnError : Bool)
    (summarizer : Option (String → Except String String))
    (models : List (String × (String → Except String String)))
    (targetLength summaryThreshold : Nat) (query : String) :
    Except String String :=
  match summarizingChainGo stopOnError summarizer models targetLength summaryThreshold
      models 0 ⟨query, []⟩ with
  | .ok ctx => .ok ((ctx.responses.getLast?).getD "")
  | .error e => .error e

/-- An accumulated response of 2001 characters, just over the 2000
character summary threshold. -/
def c9LongResponse : String := String.mk (List.replicate 2001 'x')

/-- A summarizer returning a fixed short summary. -/
def c9Summarizer : String → Except String String := fun _ => .ok "short summary"

/-! ## Theorems -/

/-! ### Claim C1: totality and fallback behaviour of `process_query` -/

/-- Fuel of 3 is exact for `processQueryAux`: any further fuel gives the
same outcome, because the fallback recursion always reaches a
configuration whose fallback equals its strategy within two steps. -/
theorem processQueryAux_fuel (exec : PipelineStrategy → Except String StrategyResult)
    (query : String) : ∀ n m cfg,
    processQueryAux exec query (n + 3) cfg = processQueryAux exec query (m + 3) cfg := by
  intro n m cfg
  simp only [processQueryAux]
  cases hE : exec (selectStrategy (analyzeQuery query) cfg.strategy) <;> simp [hE]

/-- The number of strategy executions attempted by `process_query` is
bounded by the fuel. -/
theorem processQueryAux_tried_le (exec : PipelineStrategy → Except String StrategyResult)
    (query : String) : ∀ n cfg,
    (processQueryAux exec query n cfg).2.length ≤ n := by
  intro n
  induction n with
  | zero => intro cfg; simp [processQueryAux]
  | succ n ih =>
    intro cfg
    simp only [processQueryAux]
    cases hE : exec (selectStrategy (analyzeQuery query) cfg.strategy) with
    | ok r => simp
    | error e =>
      cases hF : cfg.fallbackStrategy with
      | none => simp
      | some fb =>
        dsimp only
        by_cases hne : fb ≠ cfg.strategy
        · rw [if_pos hne]
          simp only [List.length_cons]
          have := ih { strategy := fb }
          omega
        · simp [hne]

/-- When every strategy execution fails, `process_query` ends in an error
result no matter the configuration. -/
theorem processQueryAux_all_fail (exec : PipelineStrategy → Except String StrategyResult)
    (query : String) (hfail : ∀ s, ∃ e, exec s = .error e) : ∀ n cfg,
    ∃ cfg' e, (processQueryAux exec query n cfg).1 = errorPipelineResult cfg' e := by
  intro n
  induction n with
  | zero => intro cfg; exact ⟨cfg, "fuel exhausted", rfl⟩
  | succ n ih =>
    intro cfg
    obtain ⟨e, hE⟩ := hfail (selectStrategy (analyzeQuery query) cfg.strategy)
    simp only [processQueryAux]
    rw [hE]
    cases hF : cfg.fallbackStrategy with
    | none => exact ⟨cfg, e, rfl⟩
    | some fb =>
      dsimp only
      by_cases hne : fb ≠ cfg.strategy
      · rw [if_pos hne]
        exact ih _
      · rw [if_neg hne]
        exact ⟨cfg, e, rfl⟩

/-- Claim C1, counterexample.  The claim says `process_query` attempts
exactly one configured fallback strategy, and that if that fallback also
fails the returned result has confidence 0.0 and an error metadata field.
With configured strategy `chain`, configured fallback `moe`, and an oracle
under which `chain` and `moe` raise but `ensemble` succeeds, the source
attempts two fallback strategies (`moe`, then `ensemble`, because the
recursive call runs under a fresh default configuration whose own fallback
is ensemble) and returns the successful ensemble result with confidence
0.5 and no error field. -/
theorem C1_counterexample_two_fallbacks :
    (processQuery c1FallbackChainExec "any question" c1ChainMoeConfig).2
      = [PipelineStrategy.chain, PipelineStrategy.moe, PipelineStrategy.ensemble] ∧
    (processQuery c1FallbackChainExec "any question" c1ChainMoeConfig).1.confidence = 1/2 ∧
    ((processQuery c1FallbackChainExec "any question" c1ChainMoeConfig).1.metadata.lookup "error")
      = none := by
  exact ⟨rfl, rfl, rfl⟩

/-- Claim C1 (amended): `process_query` always returns a `PipelineResult`
and never raises; at most three strategy executions are ever attempted;
when the selected strategy succeeds its result is returned with no
fallback attempt; when it fails and no differing fallback is configured,
the error result (confidence 0.0, `error` metadata field) is returned
directly; the configured fallback runs under a fresh default configuration
whose own fallback is ensemble, so a second fallback attempt can occur,
and whenever every attempted strategy fails the final result has
confidence 0.0 and an `error` field in its metadata. -/
theorem C1_process_query_amended
    (exec : PipelineStrategy → Except String StrategyResult)
    (query : String) (cfg : PipelineConfig) :
    (processQuery exec query cfg).2.length ≤ 3 ∧
    (∀ r, exec (selectStrategy (analyzeQuery query) cfg.strategy) = .ok r →
      processQuery exec query cfg =
        ({ response := r.response, confidence := r.confidence,
           strategyUsed := selectStrategy (analyzeQuery query) cfg.strategy,
           modelsUsed := r.modelsUsed, metadata := r.metadata },
         [selectStrategy (analyzeQuery query) cfg.strategy])) ∧
    (∀ e, exec (selectStrategy (analyzeQuery query) cfg.strategy) = .error e →
      cfg.fallbackStrategy = none ∨ cfg.fallbackStrategy = some cfg.strategy →
      processQuery exec query cfg =
        (errorPipelineResult cfg e, [selectStrategy (analyzeQuery query) cfg.strategy])) ∧
    ((∀ s, ∃ e, exec s = .error e) →
      (processQuery exec query cfg).1.confidence = 0 ∧
      ((processQuery exec query cfg).1.metadata.lookup "error").isSome = true) := by
  refine ⟨processQueryAux_tried_le exec query 3 cfg, ?_, ?_, ?_⟩
  · intro r h
    simp only [processQuery, processQueryAux]
    rw [h]
  · intro e h hf
    simp only [processQuery, processQueryAux]
    rw [h]
    dsimp only
    rcases hf with hf | hf
    · rw [hf]
    · rw [hf]
      dsimp only
      rw [if_neg (by simp)]
  · intro hfail
    obtain ⟨cfg', e, hend⟩ := processQueryAux_all_fail exec query hfail 3 cfg
    simp only [processQuery]
    rw [hend]
    exact ⟨rfl, rfl⟩

/-- Claim C1 witness: the amended theorem applied to an oracle under which
every strategy fails and to the default configuration. -/
theorem C1_process_query_amended_witness :
    (processQuery c1AllFailExec "what is lactate threshold" c1DefaultConfig).1.confidence = 0 ∧
    ((processQuery c1AllFailExec "what is lactate threshold"
        c1DefaultConfig).1.metadata.lookup "error").isSome = true :=
  (C1_process_query_amended c1AllFailExec "what is lactate threshold" c1DefaultConfig).2.2.2
    (fun _ => ⟨"backend down", rfl⟩)

/-! ### Claim C3: automatic strategy selection scenarios -/

/-- Claim C3, counterexample.  The spec scenario says a 15-word query
containing "comprehensive analysis" selects `chain`; in the source a
15-word query is `SIMPLE` (the moderate tier needs more than 20 words), so
the first cascade rule fires and `ensemble` is selected. -/
theorem C3_counterexample_15_words :
    wordCount c3Query15 = 15 ∧
    strContains (strLower c3Query15) "comprehensive analysis" = true ∧
    selectStrategy (analyzeQuery c3Query15) .auto ≠ .chain ∧
    selectStrategy (analyzeQuery c3Query15) .auto = .ensemble := by
  decide

/-- Claim C3 (amended): the 4-word query "What is VO2 max?" selects
ensemble; any query containing a synthesis indicator such as "compare"
selects moe (so the 60-word compare/integrate scenario holds); a query of
at most 20 words containing no synthesis indicator selects ensemble (so a
15-word "comprehensive analysis" query selects ensemble, not chain); the
auto cascade is exactly the spec cascade simple-and-no-synthesis to
Ensemble, synthesis-or-complex to MoE, expertise-and-moderate-or-complex
to Chain, expert tier to Hybrid, default Ensemble; and the word-count
tiers are simple up to 20 words, moderate up to 50, complex above. -/
theorem C3_strategy_selection_amended :
    (selectStrategy (analyzeQuery "What is VO2 max?") .auto = .ensemble) ∧
    (∀ q : String, strContains (strLower q) "compare" = true →
      selectStrategy (analyzeQuery q) .auto = .moe) ∧
    (∀ q : String, wordCount q ≤ 20 →
      (∀ ind ∈ domainIndicators, strContains (strLower q) ind = false) →
      selectStrategy (analyzeQuery q) .auto = .ensemble) ∧
    (∀ a : QueryAnalysis, selectStrategy a .auto = specSelectAuto a) ∧
    (∀ wc : Nat, baseComplexity wc = specTier wc) := by
  refine ⟨by decide, ?_, ?_, ?_, ?_⟩
  · intro q h
    have hsynth : domainIndicators.any (fun ind => strContains (strLower q) ind) = true :=
      List.any_eq_true.mpr ⟨"compare", by decide, h⟩
    simp [selectStrategy, analyzeQuery, hsynth]
  · intro q hwc hno
    have hsynth : domainIndicators.any (fun ind => strContains (strLower q) ind) = false := by
      rw [List.any_eq_false]
      intro x hx
      simp [hno x hx]
    have hbc : baseComplexity (wordCount q) = .simple := by
      unfold baseComplexity
      rw [if_neg (by omega), if_neg (by omega)]
    simp [selectStrategy, analyzeQuery, hsynth, hbc]
  · intro a
    rcases a with ⟨len, comp, syn, exp⟩
    cases comp <;> cases syn <;> cases exp <;> rfl
  · intro wc
    unfold baseComplexity specTier
    split_ifs <;> first | rfl | omega

/-- Claim C3 witness: the amended theorem applied to a concrete 60-word
query containing "compare" and "integrate". -/
theorem C3_strategy_selection_amended_witness :
    wordCount c3Query60 = 60 ∧
    strContains (strLower c3Query60) "compare" = true ∧
    strContains (strLower c3Query60) "integrate" = true ∧
    selectStrategy (analyzeQuery c3Query60) .auto = .moe :=
  ⟨by decide, by decide, by decide,
    C3_strategy_selection_amended.2.1 c3Query60 (by decide)⟩

/-! ### Claim C2: single-response fast path of the five mixers -/

/-- Intercalating a one-element list is the element itself. -/
theorem intercalate_single (sep x : String) : String.intercalate sep [x] = x := rfl

/-- Looking up any key in a one-entry dictionary either hits the entry or
misses; either way the fallback below returns the single value. -/
theorem lookup_single_match (b k v : String) :
    (match List.lookup b [(k, v)] with
     | some r => r
     | none => v) = v := by
  cases hb : b == k <;> simp [List.lookup, hb]

/-- Claim C2, counterexample.  `ConcatenationMixer.mix` has no
single-response fast path: with one response and no weights it returns
the response prefixed with its bracketed source header, which is not
byte-identical to the response. -/
theorem C2_counterexample_concatenation :
    concatenationMix {} "query" [("science", "hello world")] none
      = "[science]:\nhello world" ∧
    concatenationMix {} "query" [("science", "hello world")] none ≠ "hello world" := by
  exact ⟨rfl, by decide⟩

/-- Claim C2 (amended): given exactly one response, Default, Synthesis,
Weighted and Consensus mixers return it byte-identical for every weight
dictionary (Synthesis without calling the synthesis model, whose choice
is immaterial), but `ConcatenationMixer.mix` returns it prefixed with the
bracketed source header. -/
theorem C2_single_response_amended (query k v : String)
    (gen : String → Except String String) (maxLen : Option Nat)
    (wcfg : WeightedMixerCfg) (ccfg : ConsensusMixerCfg)
    (weights : Option (List (String × ℚ))) :
    defaultMix query [(k, v)] weights = v ∧
    synthesisMix gen maxLen query [(k, v)] weights = v ∧
    weightedMix wcfg query [(k, v)] weights = .ok v ∧
    consensusMix ccfg query [(k, v)] weights = v ∧
    concatenationMix {} query [(k, v)] weights
      = concatHeader {} weights k ++ "\n" ++ v := by
  refine ⟨?_, rfl, rfl, rfl, ?_⟩
  · unfold defaultMix
    match weights with
    | none => rfl
    | some [] => rfl
    | some (w0 :: ws) =>
      dsimp only [Option.map]
      exact lookup_single_match _ k v
  · unfold concatenationMix concatSortedSources
    match weights with
    | none => simp [concatHeader, List.lookup, intercalate_single]
    | some [] => simp [concatHeader, List.lookup, intercalate_single]
    | some (w0 :: ws) =>
      simp only [List.isEmpty_cons, List.map_cons, List.map_nil, sortDescBy, insertDescBy]
      simp [List.lookup, intercalate_single]

/-- Claim C2 witness: the amended theorem applied at concrete single
responses (once with weights on a different key, once without). -/
theorem C2_single_response_amended_witness :
    defaultMix "q" [("a", "hello")] (some [("b", 1)]) = "hello" ∧
    synthesisMix (fun _ => .error "down") none "q" [("a", "hello")] none = "hello" :=
  ⟨(C2_single_response_amended "q" "a" "hello" (fun _ => .error "down") none {} {}
      (some [("b", 1)])).1,
   (C2_single_response_amended "q" "a" "hello" (fun _ => .error "down") none {} {}
      none).2.1⟩

/-! ### Claim C8: consensus grouping in `ConsensusBasedMixer` -/

/-- Claim C8, counterexample.  The claim says a group is consensus if and
only if the number of distinct contributing experts over the total is at
least the threshold.  With 3 experts and threshold 0.6, a point that a
single expert contributes twice (its response repeats the sentence) forms
a group of two points and is reported as consensus, although only 1 of 3
experts (fraction 1/3 < 0.6) supports it: the source counts points with
multiplicity, not distinct experts. -/
theorem C8_counterexample_multiplicity :
    findConsensus (3/5) c8MultiKeyPoints [] = [c8PointA] ∧
    (c8MultiKeyPoints.filter
      (fun p => p.2.any (fun pt => pointsSimilar pt c8PointA))).length = 1 ∧
    ¬ ((1 : ℚ) / 3 ≥ 3/5) := by
  refine ⟨by with_unfolding_all decide, by with_unfolding_all decide, by norm_num⟩

/-- Claim C8 (amended): a group is reported as consensus exactly when its
number of points, counted with multiplicity, is at least the number of
experts times the consensus threshold; when every expert contributes at
most one point to the group this is the distinct-expert fraction, and in
particular with 3 experts and threshold 0.6 a point supported by exactly
2 experts is consensus while a point supported by exactly 1 expert is
not. -/
theorem C8_consensus_amended :
    (findConsensus (3/5) c8SpecKeyPoints [] = [c8PointA] ∧
     groupIsConsensus 2 3 (3/5) = true ∧
     groupIsConsensus 1 3 (3/5) = false) ∧
    (∀ (g : List (String × String × ℚ)) (numExperts : Nat) (τ : ℚ),
      (g.map (fun t => t.2.1)).Nodup →
      (groupIsConsensus g.length numExperts τ = true ↔
        (((g.map (fun t => t.2.1)).dedup.length : ℚ) ≥ (numExperts : ℚ) * τ))) := by
  constructor
  · exact ⟨by with_unfolding_all decide, by with_unfolding_all decide,
      by with_unfolding_all decide⟩
  · intro g numExperts τ h
    rw [List.dedup_eq_self.mpr h, List.length_map]
    unfold groupIsConsensus
    exact decide_eq_true_iff

/-- Claim C8 witness: the amended equivalence applied to a concrete
two-point group from two distinct experts. -/
theorem C8_consensus_amended_witness :
    groupIsConsensus 2 3 (3/5) = true ↔
      ((([("x", "A", (1 : ℚ)), ("y", "B", (1 : ℚ))].map
        (fun t : String × String × ℚ => t.2.1)).dedup.length : ℚ) ≥ (3 : ℚ) * (3/5)) :=
  C8_consensus_amended.2 [("x", "A", 1), ("y", "B", 1)] 3 (3/5) (by decide)

/-! ### Claim C4: softmax invariant of `EmbeddingRouter.route_multiple` -/

/-- A list of positive rationals with at least one element has positive
sum. -/
theorem listSumPos : ∀ (l : List ℚ), l ≠ [] → (∀ x ∈ l, 0 < x) → 0 < l.sum := by
  intro l
  induction l with
  | nil => intro h; exact absurd rfl h
  | cons x xs ih =>
    intro _ hpos
    rw [List.sum_cons]
    rcases xs with _ | ⟨y, ys⟩
    · simpa using hpos x (by simp)
    · have h1 : 0 < x := hpos x (by simp)
      have h2 : 0 < (y :: ys).sum := ih (by simp) (fun z hz => hpos z (by simp [hz]))
      linarith

/-- Dividing every element by a constant divides the sum. -/
theorem listSumMapDiv (l : List ℚ) (c : ℚ) :
    (l.map (fun x => x / c)).sum = l.sum / c := by
  induction l with
  | nil => simp
  | cons x xs ih => simp [ih, add_div]

/-- The softmax scores over a non-empty score list sum to exactly 1 for
any positive exponential function. -/
theorem softmaxScores_sum (expf : ℚ → ℚ) (hexp : ∀ x, 0 < expf x)
    (temperature : ℚ) (scores : List ℚ) (hne : scores ≠ []) :
    (softmaxScores expf temperature scores).sum = 1 := by
  unfold softmaxScores
  set sv := if temperature ≠ 1 then scores.map (fun s => s / temperature) else scores with hsv
  have hsvne : sv ≠ [] := by
    rw [hsv]
    split
    · simpa using hne
    · exact hne
  set es := sv.map (fun s => expf (s - listMax sv)) with hes
  have hesne : es ≠ [] := by simpa [hes] using hsvne
  have hpos : 0 < es.sum := by
    refine listSumPos es hesne ?_
    intro x hx
    rw [hes] at hx
    obtain ⟨s, _, rfl⟩ := List.mem_map.mp hx
    exact hexp _
  rw [listSumMapDiv]
  exact div_self (ne_of_gt hpos)

/-- Claim C4, counterexample.  With two equally similar domains, default
temperature 1.0 and default threshold 0.6, the softmax assigns 0.5 to
each candidate, both fall below the threshold, and `route_multiple`
returns the empty list: the returned scores sum to 0, not to 1 within
1e-6.  On this input the exponential is only evaluated at 0, where the
true `exp` is exactly 1, so the constant-one surrogate used here agrees
with `numpy.exp` at every evaluated point. -/
theorem C4_counterexample_threshold_filter :
    routeMultipleEmbedding (fun _ => 1) 1 (3/5) 3 c4EqualScores = [] ∧
    ¬ (|((routeMultipleEmbedding (fun _ => 1) 1 (3/5) 3 c4EqualScores).map
        Prod.snd).sum - 1| ≤ 1/1000000) := by
  constructor
  · with_unfolding_all decide
  · with_unfolding_all decide

/-- Claim C4 (amended): for every positive exponential, every temperature
and every non-empty score list, the temperature-scaled softmax vector
computed inside `route_multiple` sums to exactly 1; but the returned list
is the top-`k` prefix filtered by the router threshold, so every returned
score is at least the threshold, at most `k` entries are returned, and
the returned scores can sum to less than 1 (down to 0). -/
theorem C4_route_multiple_amended (expf : ℚ → ℚ) (hexp : ∀ x, 0 < expf x)
    (temperature threshold : ℚ) (k : Nat)
    (scores : List (String × ℚ)) (hne : scores ≠ []) :
    (softmaxScores expf temperature (scores.map Prod.snd)).sum = 1 ∧
    (∀ p ∈ routeMultipleEmbedding expf temperature threshold k scores,
      p.2 ≥ threshold) ∧
    (routeMultipleEmbedding expf temperature threshold k scores).length ≤ k := by
  refine ⟨softmaxScores_sum expf hexp temperature _ (by simpa using hne), ?_, ?_⟩
  · intro p hp
    match scores, hne with
    | s0 :: srest, _ =>
      unfold routeMultipleEmbedding at hp
      have := List.of_mem_filter hp
      simpa using this
  · match scores, hne with
    | s0 :: srest, _ =>
      unfold routeMultipleEmbedding
      calc (List.filter _ (List.take k _)).length
          ≤ (List.take k (sortDescBy (fun p : String × ℚ => p.2)
              (((s0 :: srest).map Prod.fst).zip
                (softmaxScores expf temperature ((s0 :: srest).map Prod.snd))))).length :=
            List.length_filter_le _ _
        _ ≤ k := List.length_take_le _ _

/-- Claim C4 witness: the amended theorem applied to the concrete
equal-score input with the constant-one exponential surrogate. -/
theorem C4_route_multiple_amended_witness :
    (softmaxScores (fun _ => 1) 1 (c4EqualScores.map Prod.snd)).sum = 1 ∧
    (∀ p ∈ routeMultipleEmbedding (fun _ => 1) 1 (3/5) 3 c4EqualScores,
      p.2 ≥ 3/5) ∧
    (routeMultipleEmbedding (fun _ => 1) 1 (3/5) 3 c4EqualScores).length ≤ 3 :=
  C4_route_multiple_amended (fun _ => 1) (fun _ => one_pos) 1 (3/5) 3
    c4EqualScores (by decide)

/-! ### Claim C6: re-registering an existing expert identifier -/

/-- After an upsert the upserted key maps to the new value. -/
theorem listUpsert_lookup {β : Type} (k : String) (v : β) :
    ∀ l : List (String × β), (listUpsert k v l).lookup k = some v := by
  intro l
  induction l with
  | nil => simp [listUpsert, List.lookup]
  | cons p rest ih =>
    rcases p with ⟨k', v'⟩
    by_cases h : k' = k
    · subst h
      simp [listUpsert, List.lookup]
    · have hbeq : (k == k') = false := by
        exact beq_eq_false_iff_ne.mpr (fun hh => h hh.symm)
      simp [listUpsert, h, List.lookup, hbeq, ih]

/-- Upserting a key that is already bound preserves the number of
entries: nothing is added, the binding is replaced. -/
theorem listUpsert_length_of_mem {β : Type} (k : String) (v : β) :
    ∀ l : List (String × β), (l.lookup k).isSome = true →
      (listUpsert k v l).length = l.length := by
  intro l
  induction l with
  | nil => intro h; simp [List.lookup] at h
  | cons p rest ih =>
    rcases p with ⟨k', v'⟩
    intro hmem
    by_cases h : k' = k
    · subst h
      simp [listUpsert]
    · have hbeq : (k == k') = false := by
        exact beq_eq_false_iff_ne.mpr (fun hh => h hh.symm)
      simp only [List.lookup, hbeq] at hmem
      simp [listUpsert, h, ih hmem]

/-- Claim C6, counterexample.  Re-registering the already-present name
`a` (without any replace flag, which the source does not have) succeeds
and silently replaces the stored model: no `DuplicateExpert` failure, and
the previously registered expert is gone. -/
theorem C6_counterexample_silent_replace :
    (c6Registry.models.lookup "a") = some "model-one" ∧
    addModel c6CreateOk c6Registry c6Cfg2
      = .ok { models := [("a", "created:m2")], configs := [("a", c6Cfg2)] } ∧
    ("created:m2" : String) ≠ "model-one" := by
  exact ⟨rfl, rfl, by decide⟩

/-- Claim C6 (amended): re-registering an existing identifier does not
fail; when the backend `create_model` succeeds the call returns the
updated registry in which the identifier now maps to the new model, the
config is likewise replaced, and the number of registered models is
unchanged; only a `create_model` exception propagates. -/
theorem C6_register_amended {M : Type}
    (createModel : RegModelConfig → Except String M)
    (st : RegState M) (cfg : RegModelConfig) (m : M)
    (hdup : (st.models.lookup cfg.name).isSome = true)
    (hcreate : createModel cfg = .ok m) :
    addModel createModel st cfg
      = .ok { models := listUpsert cfg.name m st.models,
              configs := listUpsert cfg.name cfg st.configs } ∧
    ((listUpsert cfg.name m st.models).lookup cfg.name) = some m ∧
    (listUpsert cfg.name m st.models).length = st.models.length ∧
    (∀ e, createModel cfg = .error e → addModel createModel st cfg = .error e) := by
  refine ⟨?_, listUpsert_lookup cfg.name m st.models,
    listUpsert_length_of_mem cfg.name m st.models hdup, ?_⟩
  · unfold addModel
    rw [hcreate]
  · intro e he
    unfold addModel
    rw [he]

/-- Claim C6 witness: the amended theorem applied to the concrete
registry already holding the name `a`. -/
theorem C6_register_amended_witness :
    addModel c6CreateOk c6Registry c6Cfg2
      = .ok { models := listUpsert "a" "created:m2" c6Registry.models,
              configs := listUpsert "a" c6Cfg2 c6Registry.configs } ∧
    ((listUpsert "a" "created:m2" c6Registry.models).lookup "a") = some "created:m2" ∧
    (listUpsert "a" "created:m2" c6Registry.models).length = c6Registry.models.length :=
  let h := C6_register_amended c6CreateOk c6Registry c6Cfg2 "created:m2"
    (by decide) rfl
  ⟨h.1, h.2.1, h.2.2.1⟩

/-! ### Claim C5: MoE fan-out versus Ensemble fan-out -/

/-- Claim C5, counterexample.  An expert failing on its first attempt and
succeeding on the second is kept by the Ensemble fan-out (its retry loop
tries again) and excluded by the MoE fan-out: the MoE expert call is a
single attempt, so the two fan-outs do not behave identically. -/
theorem C5_counterexample_no_retry :
    moeFanOut c5SecondTryBehavior [("e1", 1)] = [] ∧
    ensembleFanOut c5SecondTryBehavior 1 3 [("e1", 1)] = [("e1", "recovered")] := by
  exact ⟨rfl, rfl⟩

/-- Claim C5 (amended): the MoE fan-out has the same shape as the
Ensemble fan-out (same skip-on-failure collection over the selected
experts, parallel and sequential branches collecting the same responses,
each call bounded by the timeout folded into the call outcome) but each
MoE expert call is a single attempt: it equals the Ensemble fan-out with
`max_retries` fixed at 1 for every behaviour, every retry delay and every
selection, whereas the Ensemble retry loop sleeps the increasing delays
`retry_delay * 1, retry_delay * 2` before the third attempt of a
three-attempt budget. -/
theorem C5_moe_fanout_amended :
    (∀ (behavior : String → Nat → Except CallErr String)
       (selected : List (String × ℚ)) (retryDelay : ℚ),
      moeFanOut behavior selected = ensembleFanOut behavior retryDelay 1 selected) ∧
    (∀ retryDelay : ℚ,
      (attemptCall (fun _ => .error (.failure "down")) retryDelay 3).2
        = [retryDelay * 1, retryDelay * 2]) := by
  constructor
  · intro behavior selected retryDelay
    unfold moeFanOut ensembleFanOut
    have h : (fun name => (attemptCall (behavior name) retryDelay 1).1)
        = fun name => behavior name 0 := by
      funext name
      unfold attemptCall attemptCallAux
      cases h0 : behavior name 0 <;> simp [h0]
    rw [h]
  · intro retryDelay
    simp only [attemptCall, attemptCallAux]
    norm_num

/-- Claim C5 witness: the amended equality applied to the concrete
second-try behaviour and a singleton selection. -/
theorem C5_moe_fanout_amended_witness :
    moeFanOut c5SecondTryBehavior [("e1", 1)]
      = ensembleFanOut c5SecondTryBehavior (1/2) 1 [("e1", 1)] :=
  C5_moe_fanout_amended.1 c5SecondTryBehavior [("e1", 1)] (1/2)

/-! ### Claim C7: high threshold with all scores below it -/

/-- Claim C7 (confirmed): with confidence threshold 0.9 and every
estimated score strictly below 0.9, `MixtureOfExperts.generate` returns
the structured no-experts-selected result and invokes no expert
generate capability (the threshold filter empties before any
aggregation, fan-out, mixing or meta-expert step). -/
theorem C7_moe_no_experts_confirmed (expf : ℚ → ℚ) (cfg : MoEConfig)
    (available : List String) (estimate : List String → List (String × ℚ))
    (behavior : String → Nat → Except CallErr String)
    (metaExpert : Option (String → Except CallErr String))
    (mixer : String → List (String × String) → Option (List (String × ℚ)) → String)
    (query : String) (topK : Option Nat)
    (hava : available ≠ [])
    (hbelow : ∀ p ∈ estimate available, p.2 < 9/10) :
    moeGenerate expf cfg available estimate behavior metaExpert mixer query topK
        (some (9/10))
      = ⟨.noExpertsSelected "No experts were selected for this query", []⟩ := by
  match available, hava with
  | a0 :: arest, _ =>
    unfold moeGenerate
    have hth : pyOrRat (some (9/10)) cfg.confidenceThreshold = 9/10 := by
      unfold pyOrRat
      dsimp only
      rw [if_neg (by norm_num)]
    rw [hth]
    have hq : (estimate (a0 :: arest)).filter (fun p => decide (p.2 ≥ 9/10)) = [] := by
      rw [List.filter_eq_nil_iff]
      intro a ha
      simp only [decide_eq_true_eq]
      exact not_le.mpr (hbelow a ha)
    have hsel : selectExperts expf cfg (estimate (a0 :: arest))
        (pyOrNat topK cfg.maxExperts) (9/10) = .ok [] := by
      unfold selectExperts
      rw [hq]
    dsimp only
    rw [hsel]

/-- Claim C7 witness: the theorem applied to two available experts with
estimated scores 0.5 and 0.7. -/
theorem C7_moe_no_experts_confirmed_witness :
    moeGenerate (fun _ => 1) {} ["e1", "e2"] c7Estimate (fun _ _ => .ok "resp")
        none (fun _ _ _ => "MIX") "query" none (some (9/10))
      = ⟨.noExpertsSelected "No experts were selected for this query", []⟩ :=
  C7_moe_no_experts_confirmed (fun _ => 1) {} ["e1", "e2"] c7Estimate
    (fun _ _ => .ok "resp") none (fun _ _ _ => "MIX") "query" none
    (by decide) (by with_unfolding_all decide)

/-! ### Claim C10: a single surviving expert response -/

/-- Claim C10, counterexample.  With the meta-expert pass enabled, a
lone surviving MoE response is still refined by the meta expert, so the
final text is not the surviving response (the mixer is indeed never
invoked). -/
theorem C10_counterexample_meta_refines :
    moeGenerate (fun _ => 1) c10MetaCfg ["e1"] (fun _ => [("e1", 1)])
        (fun _ _ => .ok "original answer") (some (fun _ => .ok "refined answer"))
        c10Mixer "query" none none
      = ⟨.answer "refined answer", ["e1"]⟩ ∧
    MoEResult.answer "refined answer" ≠ MoEResult.answer "original answer" := by
  exact ⟨by with_unfolding_all decide, by decide⟩

/-- Claim C10 (amended): when exactly one expert response survives
fan-out, `Ensemble.generate` returns it directly for every mixer, and
`MixtureOfExperts.generate` does the same for every mixer provided the
meta-expert pass is not active; with the meta-expert pass active the
lone survivor is still fed through the meta expert (never through the
mixer) and the refined text is returned. -/
theorem C10_single_survivor_amended :
    (∀ (cfgE : EnsembleConfig)
       (mixer : String → List (String × String) → Option (List (String × ℚ)) → String)
       (available : List String) (routed : List (String × ℚ))
       (behavior : String → Nat → Except CallErr String)
       (fb : EnsResult) (query m r : String),
      available ≠ [] → routed ≠ [] →
      ensembleFanOut behavior cfgE.retryDelay cfgE.maxRetries routed = [(m, r)] →
      ensembleGenerate cfgE mixer available routed behavior fb query = .answer r) ∧
    (∀ (expf : ℚ → ℚ) (cfg : MoEConfig) (available : List String)
       (estimate : List String → List (String × ℚ))
       (behavior : String → Nat → Except CallErr String)
       (metaExpert : Option (String → Except CallErr String))
       (mixer : String → List (String × String) → Option (List (String × ℚ)) → String)
       (query : String) (topK : Option Nat) (ct : Option ℚ)
       (selected : List (String × ℚ)) (m r : String),
      available ≠ [] →
      selectExperts expf cfg (estimate available) (pyOrNat topK cfg.maxExperts)
        (pyOrRat ct cfg.confidenceThreshold) = .ok selected →
      selected ≠ [] →
      moeFanOut behavior selected = [(m, r)] →
      (cfg.useMetaExpert = false →
        moeGenerate expf cfg available estimate behavior metaExpert mixer query topK ct
          = ⟨.answer r, selected.map Prod.fst⟩) ∧
      (∀ meta, cfg.useMetaExpert = true → metaExpert = some meta →
        moeGenerate expf cfg available estimate behavior metaExpert mixer query topK ct
          = ⟨.answer (applyMetaExpert meta query r [(m, r)] selected),
             selected.map Prod.fst⟩)) := by
  constructor
  · intro cfgE mixer available routed behavior fb query m r hava hroute hfan
    match available, hava with
    | a0 :: arest, _ =>
      match routed, hroute with
      | r0 :: rrest, _ =>
        unfold ensembleGenerate
        dsimp only
        rw [hfan]
  · intro expf cfg available estimate behavior metaExpert mixer query topK ct
      selected m r hava hsel hselne hfan
    match available, hava with
    | a0 :: arest, _ =>
      match selected, hselne, hsel, hfan with
      | s0 :: srest, _, hsel, hfan =>
        constructor
        · intro hmeta
          unfold moeGenerate
          dsimp only
          rw [hsel]
          dsimp only
          rw [hfan, hmeta]
          rfl
        · intro meta hmeta hme
          unfold moeGenerate
          dsimp only
          rw [hsel]
          dsimp only
          rw [hfan, hmeta, hme]
          rfl

/-- Claim C10 witness: the amended theorem applied to a singleton
routing whose lone call succeeds. -/
theorem C10_single_survivor_amended_witness :
    ensembleGenerate {} c10Mixer ["e1"] [("e1", 1)]
        (fun _ _ => .ok "only answer") (.fallbackResult "fb") "q"
      = .answer "only answer" :=
  C10_single_survivor_amended.1 {} c10Mixer ["e1"] [("e1", 1)]
    (fun _ _ => .ok "only answer") (.fallbackResult "fb") "q" "e1" "only answer"
    (by decide) (by decide) rfl

/-! ### Claim C9: summarization in `SummarizingChain` -/

/-- Claim C9 (confirmed): with summary threshold 2000, whenever the
cumulative character length of the accumulated responses strictly
exceeds 2000 before a step past the first, the summarize trigger fires,
the summarizer is invoked on the joined context and the entire
accumulated context is replaced by its single summary (the internal
response list has length 1 immediately after summarization), and the
prompt the step builds is the one built from that single summarized
context. -/
theorem C9_summarizing_chain_confirmed
    (summarizer : Option (String → Except String String))
    (models : List (String × (String → Except String String)))
    (targetLength i : Nat) (ctx : ChainCtx)
    (f : String → Except String String) (s : String) (total : Nat)
    (hi : 0 < i)
    (hlen : (ctx.responses.map String.length).sum > 2000)
    (hres : resolveSummarizer summarizer models = some f)
    (hok : f (summaryPrompt targetLength ctx) = .ok s) :
    shouldSummarize 2000 ctx = true ∧
    summarizeContext summarizer models targetLength ctx = ⟨ctx.query, [s]⟩ ∧
    (summarizeContext summarizer models targetLength ctx).responses.length = 1 ∧
    stepContext summarizer models targetLength 2000 i ctx
      = summarizeContext summarizer models targetLength ctx ∧
    formatPrompt (stepContext summarizer models targetLength 2000 i ctx) i total
      = formatPrompt ⟨ctx.query, [s]⟩ i total := by
  obtain ⟨q, resps⟩ := ctx
  rcases resps with _ | ⟨r0, rs⟩
  · simp at hlen
  · have h1 : shouldSummarize 2000 ⟨q, r0 :: rs⟩ = true := by
      unfold shouldSummarize
      exact decide_eq_true hlen
    have h2 : summarizeContext summarizer models targetLength ⟨q, r0 :: rs⟩
        = ⟨q, [s]⟩ := by
      unfold summarizeContext
      dsimp only
      rw [hres]
      dsimp only
      rw [hok]
    have h4 : stepContext summarizer models targetLength 2000 i ⟨q, r0 :: rs⟩
        = summarizeContext summarizer models targetLength ⟨q, r0 :: rs⟩ := by
      unfold stepContext
      rw [if_pos ⟨hi, h1⟩]
    exact ⟨h1, h2, by simp [h2], h4, by rw [h4, h2]⟩

/-- Claim C9 witness: the theorem applied to a 2001-character context and
a concrete summarizer. -/
theorem C9_summarizing_chain_confirmed_witness :
    summarizeContext (some c9Summarizer) [] 500 ⟨"the query", [c9LongResponse]⟩
      = ⟨"the query", ["short summary"]⟩ ∧
    shouldSummarize 2000 ⟨"the query", [c9LongResponse]⟩ = true :=
  let h := C9_summarizing_chain_confirmed (some c9Summarizer) [] 500 1
    ⟨"the query", [c9LongResponse]⟩ c9Summarizer "short summary" 3
    (by decide)
    (by
      simp only [List.map_cons, List.map_nil, List.sum_cons, List.sum_nil, add_zero]
      have hl : c9LongResponse.length = 2001 := by
        show (List.replicate 2001 'x').length = 2001
        rw [List.length_replicate]
      omega)
    rfl rfl
  ⟨h.2.1, h.1⟩
